import Mathlib

/-!
# Indoor LoRaWAN scenario (`scenario_2/scenario1.cpp`): device placement, channel
construction, output listings and application period

The scenario is one `main` function.  The parts embedded here are

* the device placement loop (lines 205-244),
* the construction of the propagation loss chain (lines 156-173),
* the files written by a run (lines 246-264, 299-315, 349-363),
* the handling of the `appPeriod` option (lines 65-73, 89, 128, 376-377),
* the attributes given to the `GridBuildingAllocator` (lines 326-344).

Coordinates are C++ `double`s in the source.  They are embedded as rationals, the
literal `1.2` being `6/5`; the counters are C++ `int`s, embedded as `Int` (they never
leave the range of a 32-bit `int`, see `placeLoop_counters_bounded`).
-/

namespace Scenario1

/-! ## Data model -/

/-- The ns-3 `Vector` of three coordinates. -/
structure Vector where
  x : ℚ
  y : ℚ
  z : ℚ
  deriving DecidableEq, Repr

/-- The three loop counters `iter_x`, `iter_y`, `iter_z` of lines 214-216. -/
structure Counters where
  iter_x : Int
  iter_y : Int
  iter_z : Int
  deriving DecidableEq, Repr

/-- Default of the global `nDevices` (line 49). -/
def nDevices : Nat := 700

/-! ## Device placement (lines 205-244) -/

/-- Lines 222-228: the node's position is read, its three coordinates are
overwritten from the counters, and it is written back. -/
def setPosition (c : Counters) (position_node : Vector) : Vector :=
  let position_node := { position_node with x := ((10 * c.iter_x + 5 : Int) : ℚ) }
  let position_node := { position_node with y := ((10 * c.iter_y + 5 : Int) : ℚ) }
  let position_node := { position_node with z := ((3 * c.iter_z : Int) : ℚ) + 6 / 5 }
  position_node

/-- Lines 230-243: the counters are advanced once, with the two wrap tests in the
order of the source. -/
def advance (c : Counters) : Counters :=
  let c := { c with iter_x := c.iter_x + 1 }
  let c := if c.iter_x = 10 then { c with iter_y := c.iter_y + 1, iter_x := 0 } else c
  let c := if c.iter_y = 10 then { c with iter_z := c.iter_z + 1, iter_x := 0, iter_y := 0 } else c
  c

/-- The `for` loop of lines 219-244 over the nodes of `endDevices`, from the counter
values `c`.  Each node is given as its position before the loop; the result keeps, for
each node, the counter values it was placed with and the position set on it. -/
def placeLoop (c : Counters) : List Vector → List (Counters × Vector)
  | [] => []
  | position_node :: rest => (c, setPosition c position_node) :: placeLoop (advance c) rest

/-- Lines 206-210: `n` nodes are created and `mobility_nodes.Install` gives node `k`
the `k`-th draw `alloc k` of the `RandomDiscPositionAllocator`. -/
def installMobility (n : Nat) (alloc : Nat → Vector) : List Vector :=
  (List.range n).map alloc

/-- State of the run that the placement code touches: the seed of the C library
generator and the end devices' positions. -/
structure World where
  randSeed : Nat
  endDevices : List Vector
  deriving DecidableEq, Repr

/-- Line 212: `srand ((unsigned) time (NULL))`. -/
def srand (seed : Nat) (w : World) : World :=
  { w with randSeed := seed % 2 ^ 32 }

/-- Lines 206-244 with their trace: the devices are created and installed, the
generator is seeded with the clock value `timeNow`, and the loop runs from counters
`0, 0, 0`. -/
def placeDevices (n : Nat) (alloc : Nat → Vector) (timeNow : Nat) : List (Counters × Vector) :=
  let w : World := { randSeed := 1, endDevices := installMobility n alloc }
  let w := srand timeNow w
  placeLoop { iter_x := 0, iter_y := 0, iter_z := 0 } w.endDevices

/-- The positions of the end devices after the loop. -/
def devicePositions (n : Nat) (alloc : Nat → Vector) (timeNow : Nat) : List Vector :=
  (placeDevices n alloc timeNow).map Prod.snd

/-- The spec's `placeDevices`: device `i` goes to room
`(i mod roomsX, (i/roomsX) mod roomsY)` on floor `i/(roomsX*roomsY)`, at position
`(roomSpacing*roomX + roomSpacing/2, roomSpacing*roomY + roomSpacing/2,
floorHeight*floorIdx + floorBase)`. -/
def placeDevices_spec (n roomsX roomsY : Nat) (roomSpacing floorHeight floorBase : ℚ) :
    List Vector :=
  (List.range n).map fun i =>
    let roomX := i % roomsX
    let roomY := (i / roomsX) % roomsY
    let floorIdx := i / (roomsX * roomsY)
    { x := roomSpacing * roomX + roomSpacing / 2
      y := roomSpacing * roomY + roomSpacing / 2
      z := floorHeight * floorIdx + floorBase }

/-- Counter values of the closed form at index `i`. -/
def countersAt (i : Nat) : Counters :=
  { iter_x := ((i % 10 : Nat) : Int)
    iter_y := (((i / 10) % 10 : Nat) : Int)
    iter_z := ((i / 100 : Nat) : Int) }

/-- Position of the closed form at index `i`. -/
def positionAt (i : Nat) : Vector :=
  { x := 10 * ((i % 10 : Nat) : ℚ) + 5
    y := 10 * (((i / 10) % 10 : Nat) : ℚ) + 5
    z := 3 * ((i / 100 : Nat) : ℚ) + 6 / 5 }

/-- Default of the global `nGateways` (line 50). -/
def nGateways : Nat := 1

/-- Lines 145-146: the `ListPositionAllocator` holding the single entry `(50, 50, 23)`. -/
def allocator : List Vector := [{ x := 50, y := 50, z := 23 }]

/-- Lines 293-297: gateway `k` takes the next entry of the list allocator, which
starts again from its first entry when the list is used up. -/
def gatewayPositions (n : Nat) : List Vector :=
  (List.range n).filterMap fun k => allocator[k % allocator.length]?

/-! ## Channel creation (lines 156-173) -/

/-- Default of the global `realisticChannelModel` (line 55). -/
def realisticChannelModel : Bool := true

/-- A propagation loss model of the chain, with the attributes the scenario sets. -/
inductive LossStage where
  | LogDistance (exponent referenceDistance referenceLoss : ℚ)
  | CorrelatedShadowing
  | BuildingPenetration
  deriving DecidableEq, Repr

/-- Lines 156-173: the loss chain handed to the `LoraChannel`, first model first;
`a->SetNext (b)` puts `b` right after `a`.  The flag is a parameter here. -/
def createChannel (realisticChannelModel : Bool) : List LossStage :=
  let loss := LossStage.LogDistance (23 / 10) 1 42
  if realisticChannelModel then
    let shadowing := LossStage.CorrelatedShadowing
    let buildingLoss := LossStage.BuildingPenetration
    loss :: shadowing :: [buildingLoss]
  else
    [loss]

/-- Modelled from the spec: the loss in dB of one stage of the pipeline at distance
`d` (the ns-3 loss models are not part of the repository).  Stage 1 is
`referenceLossDb + 10*pathLossExponent*log10(distance/referenceDistance)`; the spec
gives no formula for the additive terms of stages 2 and 3, which are the parameters
`shadow` and `penetration`. -/
noncomputable def stageLoss (shadow penetration : ℝ) (d : ℝ) : LossStage → ℝ
  | .LogDistance exponent referenceDistance referenceLoss =>
      (referenceLoss : ℝ) + 10 * (exponent : ℝ) * Real.logb 10 (d / (referenceDistance : ℝ))
  | .CorrelatedShadowing => shadow
  | .BuildingPenetration => penetration

/-- Modelled from the spec: the total path loss of a chain, each stage adding its loss
and delegating to the next one chained to it. -/
noncomputable def pathLoss (chain : List LossStage) (shadow penetration : ℝ) (d : ℝ) : ℝ :=
  (chain.map (stageLoss shadow penetration d)).sum

/-! ## Buildings (lines 326-344) -/

/-- The ns-3 `Box`. -/
structure Box where
  xMin : ℚ
  xMax : ℚ
  yMin : ℚ
  yMax : ℚ
  zMin : ℚ
  zMax : ℚ
  deriving DecidableEq, Repr

/-- A building: its boundaries and its subdivision into rooms and floors. -/
structure Building where
  boundaries : Box
  NRoomsX : Nat
  NRoomsY : Nat
  NFloors : Nat
  ExternalWallsType : Nat
  buildingType : Nat
  deriving DecidableEq, Repr

/-- Attributes of a `GridBuildingAllocator` and of the buildings it creates. -/
structure GridBuildingAllocator where
  GridWidth : Nat
  LengthX : ℚ
  LengthY : ℚ
  DeltaX : ℚ
  DeltaY : ℚ
  Height : ℚ
  NRoomsX : Nat
  NRoomsY : Nat
  NFloors : Nat
  ExternalWallsType : Nat
  buildingType : Nat
  MinX : ℚ
  MinY : ℚ
  deriving DecidableEq, Repr

/-- Lines 326-342: the attribute values set by the scenario. -/
def gridBuildingAllocator : GridBuildingAllocator :=
  { GridWidth := 3
    LengthX := 100
    LengthY := 100
    DeltaX := 15 / 2
    DeltaY := 15 / 2
    Height := 21
    NRoomsX := 10
    NRoomsY := 10
    NFloors := 7
    ExternalWallsType := 1
    buildingType := 2
    MinX := 0
    MinY := 0 }

/-- Failure of the building allocator. -/
inductive AllocError where
  | InvalidConfiguration
  deriving DecidableEq, Repr

/-- Modelled from the spec: the building allocator's `generate` (`Create` of the ns-3
`GridBuildingAllocator`, which is not part of the repository).  It tiles `count`
buildings on a grid with `gridWidth` buildings per row, spaced by
`(lengthX+deltaX, lengthY+deltaY)`, starting at `(minX, minY)`, and fails with
`InvalidConfiguration` when a grid dimension is not positive. -/
def GridBuildingAllocator.Create (a : GridBuildingAllocator) (count : Nat) :
    Except AllocError (List Building) :=
  if a.GridWidth = 0 ∨ a.LengthX ≤ 0 ∨ a.LengthY ≤ 0 ∨ a.Height ≤ 0
      ∨ a.NRoomsX = 0 ∨ a.NRoomsY = 0 ∨ a.NFloors = 0 then
    .error .InvalidConfiguration
  else
    .ok ((List.range count).map fun k =>
      let xMin := a.MinX + ((k % a.GridWidth : Nat) : ℚ) * (a.LengthX + a.DeltaX)
      let yMin := a.MinY + ((k / a.GridWidth : Nat) : ℚ) * (a.LengthY + a.DeltaY)
      { boundaries :=
          { xMin := xMin, xMax := xMin + a.LengthX
            yMin := yMin, yMax := yMin + a.LengthY
            zMin := 0, zMax := a.Height }
        NRoomsX := a.NRoomsX
        NRoomsY := a.NRoomsY
        NFloors := a.NFloors
        ExternalWallsType := a.ExternalWallsType
        buildingType := a.buildingType })

/-- Line 344: `gridBuildingAllocator->Create (2)`. -/
def bContainer : Except AllocError (List Building) :=
  gridBuildingAllocator.Create 2

/-- Side of a room of building `b` along x. -/
def Building.roomLengthX (b : Building) : ℚ :=
  (b.boundaries.xMax - b.boundaries.xMin) / (b.NRoomsX : ℚ)

/-- Side of a room of building `b` along y. -/
def Building.roomLengthY (b : Building) : ℚ :=
  (b.boundaries.yMax - b.boundaries.yMin) / (b.NRoomsY : ℚ)

/-- Height of a floor of building `b`. -/
def Building.floorHeight (b : Building) : ℚ :=
  (b.boundaries.zMax - b.boundaries.zMin) / (b.NFloors : ℚ)

/-- The position `p` is strictly inside the boundaries of `b`. -/
def Building.strictlyInside (b : Building) (p : Vector) : Prop :=
  b.boundaries.xMin < p.x ∧ p.x < b.boundaries.xMax
    ∧ b.boundaries.yMin < p.y ∧ p.y < b.boundaries.yMax
    ∧ b.boundaries.zMin < p.z ∧ p.z < b.boundaries.zMax

instance (b : Building) (p : Vector) : Decidable (b.strictlyInside p) := by
  unfold Building.strictlyInside; infer_instance

/-- The position `p` is strictly inside the cell of `b` that is room `(rx, ry)` of
floor `f`. -/
def Building.strictlyInsideCell (b : Building) (rx ry f : Nat) (p : Vector) : Prop :=
  b.boundaries.xMin + b.roomLengthX * rx < p.x
    ∧ p.x < b.boundaries.xMin + b.roomLengthX * (rx + 1)
    ∧ b.boundaries.yMin + b.roomLengthY * ry < p.y
    ∧ p.y < b.boundaries.yMin + b.roomLengthY * (ry + 1)
    ∧ b.boundaries.zMin + b.floorHeight * f < p.z
    ∧ p.z < b.boundaries.zMin + b.floorHeight * (f + 1)

instance (b : Building) (rx ry f : Nat) (p : Vector) :
    Decidable (b.strictlyInsideCell rx ry f p) := by
  unfold Building.strictlyInsideCell; infer_instance

/-! ## Files written by a run (lines 246-264, 299-315, 349-363) -/

/-- One line `index is: i, Xpos: x, Ypos: y, Zpos: z` of a coordinate listing. -/
structure CoordLine where
  index : Int
  position : Vector
  deriving DecidableEq, Repr

/-- One line `set object j rect from xMin,yMin to xMax,yMax` of the building listing. -/
structure BuildingLine where
  j : Int
  xMin : ℚ
  yMin : ℚ
  xMax : ℚ
  yMax : ℚ
  deriving DecidableEq, Repr

/-- What a written file holds. -/
inductive Listing where
  | coords (lines : List CoordLine)
  | buildings (lines : List BuildingLine)
  deriving DecidableEq, Repr

/-- A file opened for writing by the run, with what was written to it. -/
structure OutFile where
  name : String
  content : Listing
  deriving DecidableEq, Repr

/-- The loops of lines 251-264 and 304-315: one line per node, `index` counting up from
the value it is given. -/
def coordLines (index : Int) : List Vector → List CoordLine
  | [] => []
  | position :: rest => { index := index, position := position } :: coordLines (index + 1) rest

/-- The loop of lines 356-361: one line per building, `j` counting up from the value it
is given. -/
def buildingLines (j : Int) : List Building → List BuildingLine
  | [] => []
  | b :: rest =>
      { j := j, xMin := b.boundaries.xMin, yMin := b.boundaries.yMin
        xMax := b.boundaries.xMax, yMax := b.boundaries.yMax } :: buildingLines (j + 1) rest

/-- The device coordinate listing of lines 246-264. -/
def myfile2 (endDevices : List Vector) : OutFile :=
  { name := "nodes_coords_peladarinos_1.txt", content := .coords (coordLines 0 endDevices) }

/-- The gateway coordinate listing of lines 299-315. -/
def myfile3 (gateways : List Vector) : OutFile :=
  { name := "gateways_coords_scenario1_peladarinos.txt"
    content := .coords (coordLines 0 gateways) }

/-- The building listing of lines 352-362. -/
def myfile (buildings : List Building) : OutFile :=
  { name := "peladarinos_Buildings_1.txt", content := .buildings (buildingLines 1 buildings) }

/-- The files written by `main`, in the order they are opened, for the option values
`print`, `n` (devices) and `g` (gateways): the two coordinate listings are written
outside any test of `print` (lines 246-264, 299-315), the building listing inside
`if (print)` (line 350). -/
def outputFiles (print : Bool) (n g : Nat) (alloc : Nat → Vector) (timeNow : Nat) :
    List OutFile :=
  let endDevices := devicePositions n alloc timeNow
  let files := [myfile2 endDevices]
  let gateways := gatewayPositions g
  let files := files ++ [myfile3 gateways]
  match bContainer with
  | .error _ => files
  | .ok buildings => if print then files ++ [myfile buildings] else files

/-- The listing a run wrote is a device coordinate listing. -/
def isDeviceListing (f : OutFile) : Bool :=
  f.name == "nodes_coords_peladarinos_1.txt"

/-- The listing a run wrote is a gateway coordinate listing. -/
def isGatewayListing (f : OutFile) : Bool :=
  f.name == "gateways_coords_scenario1_peladarinos.txt"

/-- The listing a run wrote is the building listing. -/
def isBuildingListing (f : OutFile) : Bool :=
  f.name == "peladarinos_Buildings_1.txt"

/-! ## Application period (lines 56, 65-73, 89, 128, 376-377) -/

/-- The ns-3 `Time`, as a number of seconds. -/
structure Time where
  seconds : ℚ
  deriving DecidableEq, Repr

/-- The ns-3 `Seconds (v)` for an `int` value. -/
def Seconds (v : Int) : Time :=
  { seconds := (v : ℚ) }

/-- Lines 69-73: `cmd.Parse` stores the value given to `appPeriod`, when there is one,
in the variable bound to the option. -/
def cmdParse (appPeriodArg : Option Int) (appPeriodSeconds : Int) : Int :=
  match appPeriodArg with
  | some p => p
  | none => appPeriodSeconds

/-- The periods a run sets up. -/
structure AppSetup where
  appPeriod : Time
  senderPeriod : Time
  deriving DecidableEq, Repr

/-- The global variables of the scenario that the period depends on. -/
structure Globals where
  appPeriodSeconds : Int
  deriving DecidableEq, Repr

/-- Lines 69-73 on the globals. -/
def Globals.parse (g : Globals) (appPeriodArg : Option Int) : Globals :=
  { g with appPeriodSeconds := cmdParse appPeriodArg g.appPeriodSeconds }

/-- The path of `appPeriodSeconds` through `main`: initialised to `0` (line 56), bound to
the option and parsed (lines 69-73), assigned `5*60` (line 89), then used for the
`appPeriod` value (line 128) and for `appHelper.SetPeriod` (line 377). -/
def appSetup (appPeriodArg : Option Int) : AppSetup :=
  let g : Globals := { appPeriodSeconds := 0 }
  let g := g.parse appPeriodArg
  let g := { g with appPeriodSeconds := 5 * 60 }
  let appPeriod := Seconds g.appPeriodSeconds
  { appPeriod := appPeriod, senderPeriod := Seconds g.appPeriodSeconds }

/-! ## Helper lemmas on the placement loop -/

theorem advance_countersAt (k : Nat) : advance (countersAt k) = countersAt (k + 1) := by
  simp only [advance, countersAt]
  split_ifs with h1 h2 h2 <;> simp only [Counters.mk.injEq] at * <;> omega

theorem setPosition_countersAt (k : Nat) (p : Vector) :
    setPosition (countersAt k) p = positionAt k := by
  simp only [setPosition, countersAt, positionAt]
  push_cast
  rfl

theorem placeLoop_countersAt (l : List Vector) (k : Nat) :
    placeLoop (countersAt k) l
      = (List.range l.length).map fun i => (countersAt (k + i), positionAt (k + i)) := by
  induction l generalizing k with
  | nil => simp [placeLoop]
  | cons p rest ih =>
    rw [placeLoop, advance_countersAt, ih (k + 1), setPosition_countersAt]
    simp only [List.length_cons, List.range_succ_eq_map, List.map_cons, List.map_map,
      Nat.add_zero]
    congr 1
    apply List.map_congr_left
    intro i _
    simp only [Function.comp, Nat.succ_eq_add_one]
    rw [show k + 1 + i = k + (i + 1) by omega]

theorem placeDevices_eq (n : Nat) (alloc : Nat → Vector) (timeNow : Nat) :
    placeDevices n alloc timeNow
      = (List.range n).map fun i => (countersAt i, positionAt i) := by
  have h := placeLoop_countersAt (installMobility n alloc) 0
  simp only [installMobility, List.length_map, List.length_range, Nat.zero_add] at h
  simpa [placeDevices, srand, installMobility, countersAt] using h

theorem placeDevices_getElem? (n : Nat) (alloc : Nat → Vector) (timeNow : Nat) (i : Nat)
    (h : i < n) :
    (placeDevices n alloc timeNow)[i]? = some (countersAt i, positionAt i) := by
  rw [placeDevices_eq]
  simp [List.getElem?_map, List.getElem?_range h]

theorem devicePositions_eq (n : Nat) (alloc : Nat → Vector) (timeNow : Nat) :
    devicePositions n alloc timeNow = (List.range n).map positionAt := by
  simp [devicePositions, placeDevices_eq, Function.comp_def]

theorem devicePositions_getElem? (n : Nat) (alloc : Nat → Vector) (timeNow : Nat) (i : Nat)
    (h : i < n) :
    (devicePositions n alloc timeNow)[i]? = some (positionAt i) := by
  rw [devicePositions_eq]
  simp [List.getElem?_map, List.getElem?_range h]

theorem placeDevices_spec_eq (n : Nat) :
    placeDevices_spec n 10 10 10 3 (6 / 5) = (List.range n).map positionAt := by
  unfold placeDevices_spec
  apply List.map_congr_left
  intro i _
  norm_num [positionAt]


theorem positionAt_injective (i j : Nat) (h : positionAt i = positionAt j) : i = j := by
  simp only [positionAt, Vector.mk.injEq] at h
  obtain ⟨hx, hy, hz⟩ := h
  have hx1 : ((i % 10 : Nat) : ℚ) = ((j % 10 : Nat) : ℚ) := by linarith
  have hy1 : (((i / 10) % 10 : Nat) : ℚ) = (((j / 10) % 10 : Nat) : ℚ) := by linarith
  have hz1 : ((i / 100 : Nat) : ℚ) = ((j / 100 : Nat) : ℚ) := by linarith
  have hx2 : i % 10 = j % 10 := by exact_mod_cast hx1
  have hy2 : (i / 10) % 10 = (j / 10) % 10 := by exact_mod_cast hy1
  have hz2 : i / 100 = j / 100 := by exact_mod_cast hz1
  omega

/-- The counters stay in the range of a 32-bit `int`: whenever a device is placed,
`0 ≤ iter_x < 10`, `0 ≤ iter_y < 10` and `0 ≤ iter_z ≤ n / 100`. -/
theorem placeLoop_counters_bounded (n : Nat) (alloc : Nat → Vector) (timeNow : Nat)
    (e : Counters × Vector) (he : e ∈ placeDevices n alloc timeNow) :
    0 ≤ e.1.iter_x ∧ e.1.iter_x < 10 ∧ 0 ≤ e.1.iter_y ∧ e.1.iter_y < 10
      ∧ 0 ≤ e.1.iter_z ∧ e.1.iter_z ≤ ((n / 100 : Nat) : Int) := by
  rw [placeDevices_eq] at he
  simp only [List.mem_map, List.mem_range] at he
  obtain ⟨i, hi, rfl⟩ := he
  simp only [countersAt]
  omega

/-- The two buildings created by line 344. -/
theorem bContainer_eq :
    bContainer = .ok
      [ { boundaries := { xMin := 0, xMax := 100, yMin := 0, yMax := 100, zMin := 0, zMax := 21 }
          NRoomsX := 10, NRoomsY := 10, NFloors := 7, ExternalWallsType := 1, buildingType := 2 },
        { boundaries :=
            { xMin := 215 / 2, xMax := 415 / 2, yMin := 0, yMax := 100, zMin := 0, zMax := 21 }
          NRoomsX := 10, NRoomsY := 10, NFloors := 7, ExternalWallsType := 1,
          buildingType := 2 } ] := by
  simp only [bContainer, GridBuildingAllocator.Create, gridBuildingAllocator]
  norm_num [List.range_succ]

theorem outputFiles_eq (print : Bool) (n g : Nat) (alloc : Nat → Vector) (timeNow : Nat) :
    ∃ buildings, bContainer = .ok buildings
      ∧ outputFiles print n g alloc timeNow
          = [myfile2 (devicePositions n alloc timeNow), myfile3 (gatewayPositions g)]
              ++ (if print then [myfile buildings] else []) := by
  refine ⟨_, bContainer_eq, ?_⟩
  simp only [outputFiles, bContainer_eq]
  cases print <;> simp

theorem positionAt_bounds (i : Nat) (h : i < 700) :
    10 * ((i % 10 : Nat) : ℚ) < (positionAt i).x
      ∧ (positionAt i).x < 10 * ((i % 10 : Nat) : ℚ) + 10
      ∧ 10 * (((i / 10) % 10 : Nat) : ℚ) < (positionAt i).y
      ∧ (positionAt i).y < 10 * (((i / 10) % 10 : Nat) : ℚ) + 10
      ∧ 3 * ((i / 100 : Nat) : ℚ) < (positionAt i).z
      ∧ (positionAt i).z < 3 * ((i / 100 : Nat) : ℚ) + 3
      ∧ ((i % 10 : Nat) : ℚ) ≤ 9 ∧ (((i / 10) % 10 : Nat) : ℚ) ≤ 9
      ∧ ((i / 100 : Nat) : ℚ) ≤ 6 := by
  have hx : ((i % 10 : Nat) : ℚ) ≤ 9 := by exact_mod_cast (show i % 10 ≤ 9 by omega)
  have hy : (((i / 10) % 10 : Nat) : ℚ) ≤ 9 := by
    exact_mod_cast (show (i / 10) % 10 ≤ 9 by omega)
  have hz : ((i / 100 : Nat) : ℚ) ≤ 6 := by exact_mod_cast (show i / 100 ≤ 6 by omega)
  simp only [positionAt]
  refine ⟨?_, ?_, ?_, ?_, ?_, ?_, hx, hy, hz⟩ <;> linarith

/-! ## The claims -/

/-- C1: for every device count `n` and every index `i < n`, the placement loop gives
device `i` the room `(i mod 10, (i/10) mod 10)`, the floor `i/100` and the position
`(10*(i mod 10) + 5, 10*((i/10) mod 10) + 5, 3*(i/100) + 1.2)`; the positions it sets are
those of the spec's closed form with `roomsX = roomsY = 10`, `roomSpacing = 10`,
`floorHeight = 3`, `floorBase = 1.2`. -/
theorem placement_loop_eq_closed_form (n : Nat) (alloc : Nat → Vector) (timeNow : Nat)
    (i : Nat) (h : i < n) :
    (placeDevices n alloc timeNow)[i]? = some
        ({ iter_x := ((i % 10 : Nat) : Int)
           iter_y := (((i / 10) % 10 : Nat) : Int)
           iter_z := ((i / 100 : Nat) : Int) },
         { x := 10 * ((i % 10 : Nat) : ℚ) + 5
           y := 10 * (((i / 10) % 10 : Nat) : ℚ) + 5
           z := 3 * ((i / 100 : Nat) : ℚ) + 6 / 5 })
      ∧ devicePositions n alloc timeNow = placeDevices_spec n 10 10 10 3 (6 / 5) := by
  refine ⟨?_, ?_⟩
  · rw [placeDevices_getElem? n alloc timeNow i h]
    rfl
  · rw [devicePositions_eq, placeDevices_spec_eq]

/-- Witness of C1: device 234 of 250 is placed with counters `(4, 3, 2)` at
`(45, 35, 7.2)`. -/
theorem placement_loop_eq_closed_form_witness :
    (234 < 250)
      ∧ (placeDevices 250 (fun _ => { x := 5, y := 5, z := 0 }) 0)[234]? = some
          ({ iter_x := 4, iter_y := 3, iter_z := 2 }, { x := 45, y := 35, z := 36 / 5 })
      ∧ devicePositions 250 (fun _ => { x := 5, y := 5, z := 0 }) 0
          = placeDevices_spec 250 10 10 10 3 (6 / 5) := by
  have h := placement_loop_eq_closed_form 250 (fun _ => { x := 5, y := 5, z := 0 }) 0 234
    (by decide)
  refine ⟨by decide, ?_, h.2⟩
  rw [h.1]
  norm_num

/-- C2: for every device count `n` and distinct indices `i`, `j` below `n`, the
positions the placement loop sets on device `i` and on device `j` differ. -/
theorem positions_pairwise_distinct (n : Nat) (alloc : Nat → Vector) (timeNow : Nat)
    (i j : Nat) (hij : i ≠ j) (hi : i < n) (hj : j < n) :
    ∃ p q, (devicePositions n alloc timeNow)[i]? = some p
      ∧ (devicePositions n alloc timeNow)[j]? = some q ∧ p ≠ q :=
  ⟨positionAt i, positionAt j, devicePositions_getElem? n alloc timeNow i hi,
    devicePositions_getElem? n alloc timeNow j hj,
    fun h => hij (positionAt_injective i j h)⟩

/-- Witness of C2: devices 5 and 105 of the default 700, same room on two floors. -/
theorem positions_pairwise_distinct_witness :
    (5 ≠ 105) ∧ (5 < 700) ∧ (105 < 700)
      ∧ ∃ p q, (devicePositions 700 (fun _ => { x := 5, y := 5, z := 0 }) 0)[5]? = some p
        ∧ (devicePositions 700 (fun _ => { x := 5, y := 5, z := 0 }) 0)[105]? = some q
        ∧ p ≠ q :=
  ⟨by decide, by decide, by decide,
    positions_pairwise_distinct 700 (fun _ => { x := 5, y := 5, z := 0 }) 0 5 105
      (by decide) (by decide) (by decide)⟩

/-- C3: for every device count `n` and every index `i < n`, the floor counter that
device `i` is placed with satisfies `0 ≤ floor < ⌈n/100⌉`; for the default `n = 700` it
is in `0..6`, below the `NFloors = 7` of the buildings. -/
theorem floor_index_in_range (n : Nat) (alloc : Nat → Vector) (timeNow : Nat)
    (i : Nat) (h : i < n) :
    ∃ c p, (placeDevices n alloc timeNow)[i]? = some (c, p)
      ∧ 0 ≤ c.iter_z ∧ c.iter_z < (((n + 99) / 100 : Nat) : Int)
      ∧ (n = nDevices → c.iter_z ≤ 6 ∧ c.iter_z < (gridBuildingAllocator.NFloors : Int)) := by
  refine ⟨countersAt i, positionAt i, placeDevices_getElem? n alloc timeNow i h, ?_, ?_, ?_⟩
  · simp only [countersAt]; omega
  · simp only [countersAt]; omega
  · intro hn
    simp only [nDevices] at hn
    simp only [countersAt, gridBuildingAllocator]
    omega

/-- Witness of C3: the last device of the default 700. -/
theorem floor_index_in_range_witness :
    (699 < 700)
      ∧ ∃ c p, (placeDevices 700 (fun _ => { x := 5, y := 5, z := 0 }) 0)[699]? = some (c, p)
        ∧ 0 ≤ c.iter_z ∧ c.iter_z < (((700 + 99) / 100 : Nat) : Int)
        ∧ (700 = nDevices → c.iter_z ≤ 6 ∧ c.iter_z < (gridBuildingAllocator.NFloors : Int)) :=
  ⟨by decide, floor_index_in_range 700 (fun _ => { x := 5, y := 5, z := 0 }) 0 699 (by decide)⟩

/-- C4: the placement is deterministic: two runs with the same device count `n` set the
same sequence of positions, whatever positions the random allocator drew (`alloc₁`,
`alloc₂`) and whatever the clock values given to `srand` (`t₁`, `t₂`); the sequence
depends on `n` only. -/
theorem placement_deterministic (n : Nat) (alloc₁ alloc₂ : Nat → Vector) (t₁ t₂ : Nat) :
    devicePositions n alloc₁ t₁ = devicePositions n alloc₂ t₂
      ∧ placeDevices n alloc₁ t₁ = placeDevices n alloc₂ t₂ := by
  constructor
  · rw [devicePositions_eq, devicePositions_eq]
  · rw [placeDevices_eq, placeDevices_eq]

/-- C6 as stated fails: no chain the scenario builds applies building penetration
without correlated shadowing, and none applies correlated shadowing without building
penetration. -/
theorem stages_skipped_independently_fails :
    ¬ ((∃ flag, LossStage.BuildingPenetration ∈ createChannel flag
          ∧ LossStage.CorrelatedShadowing ∉ createChannel flag)
        ∧ (∃ flag, LossStage.CorrelatedShadowing ∈ createChannel flag
          ∧ LossStage.BuildingPenetration ∉ createChannel flag)) := by
  decide

/-- C6, amended: stages 2 and 3 are chained together under the one flag: the chain is
log-distance, correlated shadowing, building penetration when the flag is set and
log-distance alone when it is not, so a chain the scenario builds applies correlated
shadowing exactly when it applies building penetration. -/
theorem stages_chained_together (flag : Bool) :
    createChannel flag
        = (if flag then
            [LossStage.LogDistance (23 / 10) 1 42, LossStage.CorrelatedShadowing,
              LossStage.BuildingPenetration]
          else [LossStage.LogDistance (23 / 10) 1 42])
      ∧ (LossStage.CorrelatedShadowing ∈ createChannel flag
          ↔ LossStage.BuildingPenetration ∈ createChannel flag)
      ∧ (LossStage.CorrelatedShadowing ∈ createChannel flag ↔ flag = true) := by
  cases flag <;> simp [createChannel]

/-- C7: with the realistic-channel flag disabled the chain is the log-distance stage
alone, with exponent 2.3 and reference 1 m, 42 dB; its path loss is
`42 + 23 * log10 (d / 1)` whatever the shadowing and penetration terms, and for
`0 < d1 ≤ d2` the loss at `d1` is at most the loss at `d2`. -/
theorem pathLoss_monotone_without_shadowing (shadow penetration d1 d2 : ℝ)
    (h1 : 0 < d1) (h12 : d1 ≤ d2) :
    createChannel false = [LossStage.LogDistance (23 / 10) 1 42]
      ∧ (∀ d : ℝ, pathLoss (createChannel false) shadow penetration d
          = 42 + 23 * Real.logb 10 (d / 1))
      ∧ pathLoss (createChannel false) shadow penetration d1
          ≤ pathLoss (createChannel false) shadow penetration d2 := by
  have hform : ∀ d : ℝ, pathLoss (createChannel false) shadow penetration d
      = 42 + 23 * Real.logb 10 (d / 1) := by
    intro d
    have hc : createChannel false = [LossStage.LogDistance (23 / 10) 1 42] := rfl
    rw [hc]
    simp only [pathLoss, stageLoss, List.map_cons, List.map_nil, List.sum_cons, List.sum_nil]
    push_cast
    ring
  refine ⟨by simp [createChannel], hform, ?_⟩
  rw [hform d1, hform d2, div_one, div_one]
  have hlog : Real.logb 10 d1 ≤ Real.logb 10 d2 :=
    Real.logb_le_logb_of_le (by norm_num) h1 h12
  linarith

/-- Witness of C7: distances 1 m and 10 m. -/
theorem pathLoss_monotone_without_shadowing_witness :
    ((0 : ℝ) < 1) ∧ ((1 : ℝ) ≤ 10)
      ∧ pathLoss (createChannel false) 0 0 1 ≤ pathLoss (createChannel false) 0 0 10 :=
  ⟨by norm_num, by norm_num,
    (pathLoss_monotone_without_shadowing 0 0 1 10 (by norm_num) (by norm_num)).2.2⟩

/-- C8 as stated fails: a run of the default 700 devices and 1 gateway with `print`
false writes the device coordinate listing and the gateway coordinate listing. -/
theorem listings_without_print_fails :
    ¬ (∀ f ∈ outputFiles false 700 1 (fun _ => { x := 5, y := 5, z := 0 }) 0,
        isDeviceListing f = false ∧ isGatewayListing f = false) := by
  obtain ⟨buildings, _, h⟩ :=
    outputFiles_eq false 700 1 (fun _ => { x := 5, y := 5, z := 0 }) 0
  intro hall
  have hmem : myfile2 (devicePositions 700 (fun _ => { x := 5, y := 5, z := 0 }) 0)
      ∈ outputFiles false 700 1 (fun _ => { x := 5, y := 5, z := 0 }) 0 := by
    rw [h]; simp
  have := (hall _ hmem).1
  simp [isDeviceListing, myfile2] at this

/-- C8, amended: the device and the gateway coordinate listings are written by every
run, whatever `print` is, one line per node with its index and position; `print`
controls the building listing only, which is written exactly when `print` is true. -/
theorem listings_and_print (print : Bool) (n g : Nat) (alloc : Nat → Vector)
    (timeNow : Nat) :
    (∃ f ∈ outputFiles print n g alloc timeNow, isDeviceListing f = true
        ∧ f.content = .coords (coordLines 0 (devicePositions n alloc timeNow)))
      ∧ (∃ f ∈ outputFiles print n g alloc timeNow, isGatewayListing f = true
        ∧ f.content = .coords (coordLines 0 (gatewayPositions g)))
      ∧ ((∃ f ∈ outputFiles print n g alloc timeNow, isBuildingListing f = true)
        ↔ print = true) := by
  obtain ⟨buildings, _, h⟩ := outputFiles_eq print n g alloc timeNow
  rw [h]
  refine ⟨⟨myfile2 _, by simp, by simp [isDeviceListing, myfile2], rfl⟩,
    ⟨myfile3 _, by simp, by simp [isGatewayListing, myfile3], rfl⟩, ?_⟩
  cases print <;> simp [isBuildingListing, myfile, myfile2, myfile3]

/-- C9 fails on the code: the value given to `appPeriod` is overwritten by the
assignment of line 89, so every run uses a period of 300 s; with `--appPeriod=600` the
period set on the periodic senders is 300 s, not 600 s. -/
theorem appPeriod_option_ignored :
    (∀ arg : Option Int, appSetup arg = { appPeriod := Seconds 300, senderPeriod := Seconds 300 })
      ∧ (appSetup (some 600)).senderPeriod = Seconds 300
      ∧ (appSetup (some 600)).senderPeriod ≠ Seconds 600
      ∧ (appSetup (some 600)).appPeriod ≠ Seconds 600 := by
  refine ⟨fun arg => ?_, ?_, ?_, ?_⟩
  · cases arg <;> rfl
  · rfl
  · decide
  · decide

/-- C10: for every device count `n ≤ 700` and every index `i < n`, the position of
device `i` is strictly inside the first building (boundaries `[0,100] x [0,100]`, height
21) and strictly inside its own cell of that building's 10 x 10 rooms of 10 m and 7
floors of 3 m: `10*rx < x < 10*rx + 10`, `10*ry < y < 10*ry + 10`, `3*f < z < 3*f + 3`
with `(rx, ry, f) = (i mod 10, (i/10) mod 10, i/100)`; for `n > 700` device 700 is placed
at `z = 22.2`, above the building height 21. -/
theorem devices_inside_first_building (n : Nat) (alloc : Nat → Vector) (timeNow : Nat)
    (i : Nat) (hn : n ≤ 700) (hi : i < n) :
    ∃ b rest p, bContainer = .ok (b :: rest)
      ∧ b.boundaries = { xMin := 0, xMax := 100, yMin := 0, yMax := 100, zMin := 0, zMax := 21 }
      ∧ b.NRoomsX = 10 ∧ b.NRoomsY = 10 ∧ b.NFloors = 7
      ∧ b.roomLengthX = 10 ∧ b.roomLengthY = 10 ∧ b.floorHeight = 3
      ∧ (devicePositions n alloc timeNow)[i]? = some p
      ∧ b.strictlyInside p
      ∧ b.strictlyInsideCell (i % 10) ((i / 10) % 10) (i / 100) p
      ∧ (10 * ((i % 10 : Nat) : ℚ) < p.x ∧ p.x < 10 * ((i % 10 : Nat) : ℚ) + 10
          ∧ 10 * (((i / 10) % 10 : Nat) : ℚ) < p.y
          ∧ p.y < 10 * (((i / 10) % 10 : Nat) : ℚ) + 10
          ∧ 3 * ((i / 100 : Nat) : ℚ) < p.z ∧ p.z < 3 * ((i / 100 : Nat) : ℚ) + 3)
      ∧ (∀ m, 700 < m → ∃ q, (devicePositions m alloc timeNow)[700]? = some q
          ∧ q.z = 111 / 5 ∧ b.boundaries.zMax < q.z ∧ ¬ b.strictlyInside q) := by
  obtain ⟨h1, h2, h3, h4, h5, h6, hx, hy, hz⟩ := positionAt_bounds i (by omega)
  have hx0 : (0 : ℚ) ≤ ((i % 10 : Nat) : ℚ) := Nat.cast_nonneg _
  have hy0 : (0 : ℚ) ≤ (((i / 10) % 10 : Nat) : ℚ) := Nat.cast_nonneg _
  have hz0 : (0 : ℚ) ≤ ((i / 100 : Nat) : ℚ) := Nat.cast_nonneg _
  refine ⟨_, _, positionAt i, bContainer_eq, rfl, rfl, rfl, rfl, ?_, ?_, ?_,
    devicePositions_getElem? n alloc timeNow i hi, ?_, ?_, ⟨h1, h2, h3, h4, h5, h6⟩, ?_⟩
  · norm_num [Building.roomLengthX]
  · norm_num [Building.roomLengthY]
  · norm_num [Building.floorHeight]
  · simp only [Building.strictlyInside]
    refine ⟨?_, ?_, ?_, ?_, ?_, ?_⟩ <;> linarith
  · simp only [Building.strictlyInsideCell, Building.roomLengthX, Building.roomLengthY,
      Building.floorHeight]
    norm_num
    refine ⟨?_, ?_, ?_, ?_, ?_, ?_⟩ <;> linarith
  · intro m hm
    refine ⟨positionAt 700, devicePositions_getElem? m alloc timeNow 700 hm, ?_, ?_, ?_⟩
    · norm_num [positionAt]
    · norm_num [positionAt]
    · simp only [Building.strictlyInside]
      norm_num [positionAt]

/-- Witness of C10: the last device of the default 700, in room `(9, 9)` of floor 6. -/
theorem devices_inside_first_building_witness :
    (700 ≤ 700) ∧ (699 < 700)
      ∧ ∃ b rest p, bContainer = .ok (b :: rest)
        ∧ (devicePositions 700 (fun _ => { x := 5, y := 5, z := 0 }) 0)[699]? = some p
        ∧ b.strictlyInside p
        ∧ b.strictlyInsideCell 9 9 6 p := by
  obtain ⟨b, rest, p, hb, _, _, _, _, _, _, _, hp, hin, hcell, _⟩ :=
    devices_inside_first_building 700 (fun _ => { x := 5, y := 5, z := 0 }) 0 699
      (by decide) (by decide)
  exact ⟨by decide, by decide, b, rest, p, hb, hp, hin, hcell⟩

end Scenario1
